import Mathlib

/-!
Verification development for the IBC host-side message processor
(light clients, channel handshake, packet lifecycle, routing dispatcher).

Each definition is a shallow embedding of the corresponding Rust item.
Definitions whose source lives outside the packaged sources (external
collaborators such as the wire codec, hashing, identifier validation
tables, or helper types only declared elsewhere) carry a doc comment
starting with `Modelled from the spec:` and follow the specification's
wording.
-/

namespace Ibc

/-- Height: pair of revision number and revision height, as in `Height`
(u64 fields; the handlers never overflow them, so they are plain naturals
here). -/
structure Height where
  revision_number : Nat
  revision_height : Nat
deriving DecidableEq, Repr

namespace Height

/-- Modelled from the spec: heights are ordered lexicographically by
revision then height. -/
def le (a b : Height) : Prop :=
  a.revision_number < b.revision_number ∨
    (a.revision_number = b.revision_number ∧ a.revision_height ≤ b.revision_height)

/-- Modelled from the spec: strict lexicographic order on heights. -/
def lt (a b : Height) : Prop :=
  a.revision_number < b.revision_number ∨
    (a.revision_number = b.revision_number ∧ a.revision_height < b.revision_height)

instance : LE Height := ⟨Height.le⟩
instance : LT Height := ⟨Height.lt⟩

instance decLeDef (a b : Height) : Decidable (Height.le a b) :=
  inferInstanceAs (Decidable (_ ∨ _))

instance decLtDef (a b : Height) : Decidable (Height.lt a b) :=
  inferInstanceAs (Decidable (_ ∨ _))

instance decLe (a b : Height) : Decidable (a ≤ b) := decLeDef a b

instance decLt (a b : Height) : Decidable (a < b) := decLtDef a b

/-- Modelled from the spec: `zero()` denotes "no timeout". -/
def zero : Height := ⟨0, 0⟩

/-- Modelled from the spec: a height is zero when it equals `zero()`. -/
def is_zero (h : Height) : Bool := h = Height.zero

/-- Modelled from the spec: `increment()` bumps the height by one. -/
def increment (h : Height) : Height := ⟨h.revision_number, h.revision_height + 1⟩

end Height

/-- Modelled from the spec: a timestamp is nanoseconds-since-epoch with a
sentinel "none". -/
structure Timestamp where
  time : Option Nat
deriving DecidableEq, Repr

/-- Result of comparing two timestamps, as in `Expiry`. -/
inductive Expiry where
  | Expired
  | NotExpired
  | InvalidTimestamp
deriving DecidableEq, Repr

namespace Timestamp

/-- Modelled from the spec: the sentinel "no timestamp" value. -/
def none : Timestamp := ⟨Option.none⟩

/-- Modelled from the spec: comparison of a reference timestamp with a
deadline yields `Expired | NotExpired | InvalidTimestamp`; the deadline is
expired when it is not strictly later than the reference, and any missing
timestamp renders the comparison invalid. -/
def check_expiry (self other : Timestamp) : Expiry :=
  match self.time, other.time with
  | some t1, some t2 => if t2 ≤ t1 then .Expired else .NotExpired
  | _, _ => .InvalidTimestamp

end Timestamp

/-- Sequence number newtype, as in `Sequence` (u64). -/
structure Sequence where
  seq : Nat
deriving DecidableEq, Repr

/-- Embeds `Sequence::increment` adds one. -/
def Sequence.increment (s : Sequence) : Sequence := ⟨s.seq + 1⟩

/-- Modelled from the spec: identifier character class, alphanumeric plus
dash, underscore, dot and slash. -/
def identCharOk (c : Char) : Bool :=
  c.isAlphanum || c = '-' || c = '_' || c = '.' || c = '/'

/-- Modelled from the spec: identifiers are validated strings with a
per-kind length range; this checks the character class and a [lo, hi]
length range. -/
def validIdent (lo hi : Nat) (s : String) : Bool :=
  lo ≤ s.length && s.length ≤ hi && s.data.all identCharOk

/-- Validated port identifier, as in `PortId`. -/
structure PortId where
  id : String
deriving DecidableEq, Repr

/-- Validated channel identifier, as in `ChannelId`. -/
structure ChannelId where
  id : String
deriving DecidableEq, Repr

/-- Validated client identifier, as in `ClientId`. -/
structure ClientId where
  id : String
deriving DecidableEq, Repr

/-- Validated connection identifier, as in `ConnectionId`. -/
structure ConnectionId where
  id : String
deriving DecidableEq, Repr

/-- Modelled from the spec: construction of an identifier fails with an
`IdentifierError` when the length is outside the per-kind range or a
character is disallowed. -/
inductive IdError where
  | invalidIdentifier (s : String)
deriving DecidableEq, Repr

/-- Modelled from the spec: `PortId::from_str`, length range [2, 64]. -/
def PortId.parse (s : String) : Except IdError PortId :=
  if validIdent 2 64 s then .ok ⟨s⟩ else .error (.invalidIdentifier s)

/-- Modelled from the spec: `ChannelId::from_str`, length range [10, 64]. -/
def ChannelId.parse (s : String) : Except IdError ChannelId :=
  if validIdent 10 64 s then .ok ⟨s⟩ else .error (.invalidIdentifier s)

/-- Modelled from the spec: `ClientId::from_str`, length range [9, 64]. -/
def ClientId.parse (s : String) : Except IdError ClientId :=
  if validIdent 9 64 s then .ok ⟨s⟩ else .error (.invalidIdentifier s)

/-- Modelled from the spec: `ConnectionId::from_str`, length range [10, 64]. -/
def ConnectionId.parse (s : String) : Except IdError ConnectionId :=
  if validIdent 10 64 s then .ok ⟨s⟩ else .error (.invalidIdentifier s)

/-- Signer account address, as in `Signer` (an opaque string). -/
structure Signer where
  account : String
deriving DecidableEq, Repr

/-- Port capability token, as in `Capability`. -/
structure Capability where
  index : Nat
deriving DecidableEq, Repr

/-- Embeds `Capability::new`. -/
def Capability.new : Capability := ⟨0⟩

/-- Tagged variant over the supported light-client schemes, as in
`ClientType`. -/
inductive ClientType where
  | Tendermint
  | Mock
deriving DecidableEq, Repr

/-- Modelled from the spec: the Mock scheme's header carries just a
height (`MockHeader`). -/
structure MockHeader where
  height : Height
deriving DecidableEq, Repr

/-- Modelled from the spec: the Mock client state wraps a mock header
(`MockClientState`). -/
structure MockClientState where
  header : MockHeader
deriving DecidableEq, Repr

/-- Modelled from the spec: the Mock consensus state wraps a mock header
(`MockConsensusState`). -/
structure MockConsensusState where
  header : MockHeader
deriving DecidableEq, Repr

/-- Modelled from the spec: the Tendermint light-client implementation is
out of scope beyond its interface; its client state is kept abstract as a
latest height, trust parameters being irrelevant here, plus a frozen flag. -/
structure TmClientState where
  latest_height : Height
  frozen : Bool
deriving DecidableEq, Repr

/-- Modelled from the spec: abstract Tendermint consensus state, a pinned
root with its timestamp; only the timestamp is consulted by the handlers
modelled here. -/
structure TmConsensusState where
  timestamp : Timestamp
deriving DecidableEq, Repr

/-- Modelled from the spec: abstract Tendermint header, carrying its
height. -/
structure TmHeader where
  height : Height
deriving DecidableEq, Repr

/-- Closed tagged variant of client states, as in `AnyClientState`. -/
inductive AnyClientState where
  | Tendermint (s : TmClientState)
  | Mock (s : MockClientState)
deriving DecidableEq, Repr

/-- Closed tagged variant of consensus states, as in `AnyConsensusState`. -/
inductive AnyConsensusState where
  | Tendermint (s : TmConsensusState)
  | Mock (s : MockConsensusState)
deriving DecidableEq, Repr

/-- Closed tagged variant of headers, as in `AnyHeader`. -/
inductive AnyHeader where
  | Tendermint (h : TmHeader)
  | Mock (h : MockHeader)
deriving DecidableEq, Repr

/-- Embeds `AnyClientState::client_type`: the declared type of the dynamic
variant. -/
def AnyClientState.client_type : AnyClientState → ClientType
  | .Tendermint _ => .Tendermint
  | .Mock _ => .Mock

/-- Embeds `AnyConsensusState::client_type`: the declared type of the dynamic
variant. -/
def AnyConsensusState.client_type : AnyConsensusState → ClientType
  | .Tendermint _ => .Tendermint
  | .Mock _ => .Mock

/-- Embeds `AnyHeader::client_type`: the declared type of the dynamic variant. -/
def AnyHeader.client_type : AnyHeader → ClientType
  | .Tendermint _ => .Tendermint
  | .Mock _ => .Mock

/-- Embeds `MockHeader::height`. -/
def MockHeader.heightOf (h : MockHeader) : Height := h.height

/-- Modelled from the spec: `MockClientState::latest_height` is the
wrapped header's height. -/
def MockClientState.latest_height (s : MockClientState) : Height := s.header.height

/-- Modelled from the spec: a Mock client state is never frozen; a
Tendermint client state is frozen per its frozen flag
(`AnyClientState::is_frozen`). -/
def AnyClientState.is_frozen : AnyClientState → Bool
  | .Tendermint s => s.frozen
  | .Mock _ => false

/-- Embeds `AnyClientState::latest_height` of the dynamic variant. -/
def AnyClientState.latest_height : AnyClientState → Height
  | .Tendermint s => s.latest_height
  | .Mock s => s.latest_height

/-- Modelled from the spec: the timestamp of the latest consensus state;
the Mock scheme keeps no time, yielding the sentinel "none". -/
def AnyConsensusState.timestamp : AnyConsensusState → Timestamp
  | .Tendermint s => s.timestamp
  | .Mock _ => Timestamp.none

/-- ICS-02 error kinds used by the embedded handlers (`ics02_client::error::Kind`);
scheme-internal errors surface as boxed messages, modelled by `other`. -/
inductive Ics02Kind where
  | RawClientAndConsensusStateTypesMismatch (state_type consensus_type : ClientType)
  | InvalidRawClientState
  | InvalidRawConsensusState
  | ClientArgsTypeMismatch (t : ClientType)
  | other (msg : String)
deriving DecidableEq, Repr

/-- The Mock scheme's verifier, as in `MockClient`. -/
inductive MockClient where
  | mk
deriving DecidableEq, Repr

/-- Embeds `MockClient::check_header_and_update_state`: rejects a header whose
height is not strictly above the client state's latest height, otherwise
returns the client and consensus states rebuilt from the header. -/
def MockClient.check_header_and_update_state (_c : MockClient)
    (client_state : MockClientState) (header : MockHeader) :
    Except String (MockClientState × MockConsensusState) :=
  if header.height ≤ client_state.latest_height then
    .error "received header height is lower than (or equal to) client latest height"
  else
    .ok (MockClientState.mk header, MockConsensusState.mk header)

/-- Closed tagged variant of client verifiers, as in `AnyClient`. -/
inductive AnyClient where
  | Tendermint
  | Mock
deriving DecidableEq, Repr

/-- Embeds `AnyClient::from_client_type`. -/
def AnyClient.from_client_type : ClientType → AnyClient
  | .Tendermint => .Tendermint
  | .Mock => .Mock

/-- The verifier's own scheme tag. -/
def AnyClient.client_type : AnyClient → ClientType
  | .Tendermint => .Tendermint
  | .Mock => .Mock

/-- Lifts the Mock verifier's result into the `Any` universe, as the
`Self::Mock` arm of `AnyClient::check_header_and_update_state` does. -/
def liftMockCheck (r : Except String (MockClientState × MockConsensusState)) :
    Except Ics02Kind (AnyClientState × AnyConsensusState) :=
  match r with
  | .error e => .error (.other e)
  | .ok (s, c) => .ok (.Mock s, .Mock c)

/-- Lifts the Tendermint verifier's result into the `Any` universe, as the
`Self::Tendermint` arm of `AnyClient::check_header_and_update_state` does. -/
def liftTmCheck (r : Except String (TmClientState × TmConsensusState)) :
    Except Ics02Kind (AnyClientState × AnyConsensusState) :=
  match r with
  | .error e => .error (.other e)
  | .ok (s, c) => .ok (.Tendermint s, .Tendermint c)

/-- Embeds `AnyClient::check_header_and_update_state`: downcasts the client state
and header to the verifier's scheme (any mismatch is
`ClientArgsTypeMismatch` carrying the verifier's type) and forwards the
matching pair to the scheme's concrete verifier.  The concrete Tendermint
verifier is an external collaborator and is therefore a parameter. -/
def AnyClient.check_header_and_update_state
    (tmCheck : TmClientState → TmHeader → Except String (TmClientState × TmConsensusState))
    (c : AnyClient) (client_state : AnyClientState) (header : AnyHeader) :
    Except Ics02Kind (AnyClientState × AnyConsensusState) :=
  match c with
  | .Tendermint =>
    match client_state, header with
    | .Tendermint cs, .Tendermint h => liftTmCheck (tmCheck cs h)
    | _, _ => .error (.ClientArgsTypeMismatch ClientType.Tendermint)
  | .Mock =>
    match client_state, header with
    | .Mock cs, .Mock h => liftMockCheck (MockClient.mk.check_header_and_update_state cs h)
    | _, _ => .error (.ClientArgsTypeMismatch ClientType.Mock)

/-- Modelled from the spec: channel states
`Uninitialized | Init | TryOpen | Open | Closed`. -/
inductive ChanState where
  | Uninitialized
  | Init
  | TryOpen
  | Open
  | Closed
deriving DecidableEq, Repr

/-- Modelled from the spec: channel ordering `Ordered | Unordered`. -/
inductive Order where
  | Unordered
  | Ordered
deriving DecidableEq, Repr

/-- Channel counterparty `(port_id, channel_id?)`, as in
`ics04_channel::channel::Counterparty`. -/
structure ChanCounterparty where
  port_id : PortId
  channel_id : Option ChannelId
deriving DecidableEq, Repr

/-- Embeds `Counterparty::new`. -/
def ChanCounterparty.new (port_id : PortId) (channel_id : Option ChannelId) :
    ChanCounterparty := ⟨port_id, channel_id⟩

/-- Channel end record, as in `ChannelEnd`. -/
structure ChannelEnd where
  state : ChanState
  ordering : Order
  remote : ChanCounterparty
  connection_hops : List ConnectionId
  version : String
deriving DecidableEq, Repr

/-- Embeds `ChannelEnd::state_matches`. -/
def ChannelEnd.state_matches (ch : ChannelEnd) (s : ChanState) : Bool :=
  ch.state = s

/-- Embeds `ChannelEnd::counterparty_matches`: equality with the supplied
counterparty. -/
def ChannelEnd.counterparty_matches (ch : ChannelEnd) (c : ChanCounterparty) : Bool :=
  ch.remote = c

/-- The source indexes `connection_hops()[0]`; the spec guarantees the hop
list is non-empty, so the head is taken with an inert default. -/
def ChannelEnd.connHop0 (ch : ChannelEnd) : ConnectionId :=
  ch.connection_hops.headD ⟨"defaultConnection"⟩

/-- Modelled from the spec: connection states
`Uninitialized | Init | TryOpen | Open`. -/
inductive ConnState where
  | Uninitialized
  | Init
  | TryOpen
  | Open
deriving DecidableEq, Repr

/-- Connection counterparty `(client_id, connection_id?, prefix)`; the
commitment prefix is an external commitment-scheme detail and is omitted. -/
structure ConnCounterparty where
  client_id : ClientId
  connection_id : Option ConnectionId
deriving DecidableEq, Repr

/-- Connection end record, as in `ConnectionEnd`; `delay_period` is kept in
nanoseconds. -/
structure ConnectionEnd where
  state : ConnState
  client_id : ClientId
  remote : ConnCounterparty
  versions : List String
  delay_period : Nat
deriving DecidableEq, Repr

/-- Packet record, as in `Packet`; data bytes are naturals below 256. -/
structure Packet where
  sequence : Sequence
  source_port : PortId
  source_channel : ChannelId
  destination_port : PortId
  destination_channel : ChannelId
  data : List Nat
  timeout_height : Height
  timeout_timestamp : Timestamp
deriving DecidableEq, Repr

/-- ICS-04 error kinds raised by the embedded handlers
(`ics04_channel::error::Kind`). -/
inductive Ics4Kind where
  | ChannelNotFound (port_id : PortId) (channel_id : ChannelId)
  | ChannelClosed (channel_id : ChannelId)
  | NoPortCapability (port_id : PortId)
  | InvalidPortCapability
  | InvalidPacketCounterparty (port_id : PortId) (channel_id : ChannelId)
  | MissingConnection (connection_id : ConnectionId)
  | MissingClientState (client_id : ClientId)
  | FrozenClient (client_id : ClientId)
  | LowPacketHeight (latest : Height) (timeout_height : Height)
  | MissingClientConsensusState (client_id : ClientId) (height : Height)
  | LowPacketTimestamp
  | MissingNextSendSeq
  | InvalidPacketSequence (got expected : Sequence)
  | MissingHeight
  | InvalidProof
  | IdentifierError
  | MissingChannel
  | MissingCounterparty
  | InvalidChannelState
  | InvalidOrdering
  | InvalidCounterpartyChannelId
deriving DecidableEq, Repr

/-- Embeds `SendPacket` event payload, as in `ics04_channel::events::SendPacket`. -/
structure SendPacketEv where
  height : Height
  packet : Packet
deriving DecidableEq, Repr

/-- Events emitted by the embedded handlers (`IbcEvent`); only the packet
send variant is reached by the handlers modelled here. -/
inductive IbcEvent where
  | SendPacket (ev : SendPacketEv)
deriving DecidableEq, Repr

/-- Handler output: result plus accumulated log lines and events, as in
`HandlerOutput`. -/
structure HandlerOutput (α : Type) where
  result : α
  log : List String
  events : List IbcEvent
deriving DecidableEq, Repr

/-- The state delta a successful send produces, as in `SendPacketResult`. -/
structure SendPacketResult where
  port_id : PortId
  channel_id : ChannelId
  seq : Sequence
  seq_number : Sequence
  timeout_height : Height
  timeout_timestamp : Timestamp
  data : List Nat
deriving DecidableEq, Repr

/-- Tagged packet-handler result, as in `PacketResult`; only the send
variant is produced by the handlers modelled here. -/
inductive PacketResult where
  | Send (r : SendPacketResult)
deriving DecidableEq, Repr

/-- Finite maps of the mock store (`HashMap`), embedded as functions to
`Option`. -/
def MapF (α β : Type) : Type := α → Option β

/-- Embeds `HashMap::insert`: later insertions shadow earlier ones. -/
def mapInsert {α β : Type} [DecidableEq α] (k : α) (v : β) (m : MapF α β) :
    MapF α β :=
  fun k' => if k' = k then some v else m k'

/-- The empty map. -/
def mapEmpty {α β : Type} : MapF α β := fun _ => Option.none

/-- Receipt marker for unordered channels, as in `Receipt`. -/
inductive Receipt where
  | Ok
deriving DecidableEq, Repr

/-- Client record of the mock store: declared type, current state, and the
consensus-state map, as in `MockClientRecord`. -/
structure MockClientRecord where
  client_type : ClientType
  client_state : Option AnyClientState
  consensus_states : MapF Height AnyConsensusState

/-- The mock host context (`MockContext`), restricted to the store fields
the embedded handlers consult; the block-history bookkeeping is outside
the claims and is omitted. -/
structure MockContext where
  latest_height : Height
  timestamp : Timestamp
  clients : MapF ClientId MockClientRecord
  client_ids_counter : Nat
  client_connections : MapF ClientId ConnectionId
  connections : MapF ConnectionId ConnectionEnd
  connection_ids_counter : Nat
  connection_channels : MapF ConnectionId (List (PortId × ChannelId))
  channel_ids_counter : Nat
  channels : MapF (PortId × ChannelId) ChannelEnd
  next_sequence_send : MapF (PortId × ChannelId) Sequence
  next_sequence_recv : MapF (PortId × ChannelId) Sequence
  next_sequence_ack : MapF (PortId × ChannelId) Sequence
  packet_acknowledgement : MapF (PortId × ChannelId × Sequence) String
  port_capabilities : MapF PortId Capability
  packet_commitment : MapF (PortId × ChannelId × Sequence) String
  packet_receipt : MapF (PortId × ChannelId × Sequence) Receipt

namespace MockContext

/-- Embeds `MockContext::default` store content: empty maps, chain at
Height(0, 5). -/
def default : MockContext where
  latest_height := ⟨0, 5⟩
  timestamp := ⟨Option.none⟩
  clients := mapEmpty
  client_ids_counter := 0
  client_connections := mapEmpty
  connections := mapEmpty
  connection_ids_counter := 0
  connection_channels := mapEmpty
  channel_ids_counter := 0
  channels := mapEmpty
  next_sequence_send := mapEmpty
  next_sequence_recv := mapEmpty
  next_sequence_ack := mapEmpty
  packet_acknowledgement := mapEmpty
  port_capabilities := mapEmpty
  packet_commitment := mapEmpty
  packet_receipt := mapEmpty

/-- Embeds `MockContext::with_client`, specialised as the source does to the Mock
client type: registers a client record holding a mock client state and a
mock consensus state at `height`. -/
def with_client (ctx : MockContext) (client_id : ClientId) (height : Height) :
    MockContext :=
  { ctx with
    clients := mapInsert client_id
      { client_type := ClientType.Mock
        client_state := some (AnyClientState.Mock ⟨⟨height⟩⟩)
        consensus_states :=
          mapInsert height (AnyConsensusState.Mock ⟨⟨height⟩⟩) mapEmpty }
      ctx.clients }

/-- Embeds `MockContext::with_connection`. -/
def with_connection (ctx : MockContext) (connection_id : ConnectionId)
    (connection_end : ConnectionEnd) : MockContext :=
  { ctx with connections := mapInsert connection_id connection_end ctx.connections }

/-- Embeds `MockContext::with_port_capability`. -/
def with_port_capability (ctx : MockContext) (port_id : PortId) : MockContext :=
  { ctx with port_capabilities := mapInsert port_id Capability.new ctx.port_capabilities }

/-- Embeds `MockContext::with_channel`. -/
def with_channel (ctx : MockContext) (port_id : PortId) (chan_id : ChannelId)
    (channel_end : ChannelEnd) : MockContext :=
  { ctx with channels := mapInsert (port_id, chan_id) channel_end ctx.channels }

/-- Embeds `MockContext::with_send_sequence`. -/
def with_send_sequence (ctx : MockContext) (port_id : PortId) (chan_id : ChannelId)
    (seq_number : Sequence) : MockContext :=
  { ctx with
    next_sequence_send := mapInsert (port_id, chan_id) seq_number ctx.next_sequence_send }

/-- Embeds `MockContext::with_recv_sequence`. -/
def with_recv_sequence (ctx : MockContext) (port_id : PortId) (chan_id : ChannelId)
    (seq_number : Sequence) : MockContext :=
  { ctx with
    next_sequence_recv := mapInsert (port_id, chan_id) seq_number ctx.next_sequence_recv }

/-- Embeds `MockContext::with_ack_sequence`: as written in the source, the base
map it clones before inserting is `next_sequence_send`. -/
def with_ack_sequence (ctx : MockContext) (port_id : PortId) (chan_id : ChannelId)
    (seq_number : Sequence) : MockContext :=
  { ctx with
    next_sequence_ack := mapInsert (port_id, chan_id) seq_number ctx.next_sequence_send }

/-- Embeds `PortReader::lookup_module_by_port` for the mock context. -/
def lookup_module_by_port (ctx : MockContext) (port_id : PortId) : Option Capability :=
  ctx.port_capabilities port_id

/-- Embeds `PortReader::authenticate` for the mock context: accepts every
capability. -/
def authenticate (_ctx : MockContext) (_cap : Capability) (_port_id : PortId) : Bool :=
  true

/-- Embeds `ChannelReader::channel_end` for the mock context. -/
def channel_end (ctx : MockContext) (pcid : PortId × ChannelId) : Option ChannelEnd :=
  ctx.channels pcid

/-- Embeds `ChannelReader::connection_end` for the mock context. -/
def connection_end (ctx : MockContext) (cid : ConnectionId) : Option ConnectionEnd :=
  ctx.connections cid

/-- Embeds `ClientReader::client_state` for the mock context: the record's
current client state, when the record exists. -/
def client_state (ctx : MockContext) (client_id : ClientId) : Option AnyClientState :=
  match ctx.clients client_id with
  | some client_record => client_record.client_state
  | Option.none => Option.none

/-- Embeds `ClientReader::consensus_state` for the mock context. -/
def consensus_state (ctx : MockContext) (client_id : ClientId) (height : Height) :
    Option AnyConsensusState :=
  match ctx.clients client_id with
  | some client_record => client_record.consensus_states height
  | Option.none => Option.none

/-- Embeds `ChannelReader::client_consensus_state` forwards to the client
reader. -/
def client_consensus_state (ctx : MockContext) (client_id : ClientId) (height : Height) :
    Option AnyConsensusState :=
  ctx.consensus_state client_id height

/-- Embeds `ChannelReader::authenticated_capability` for the mock context: a
missing capability is `NoPortCapability`, a capability that fails
authentication is `InvalidPortCapability`. -/
def authenticated_capability (ctx : MockContext) (port_id : PortId) :
    Except Ics4Kind Capability :=
  match ctx.lookup_module_by_port port_id with
  | some key =>
    if ¬ ctx.authenticate key port_id then .error .InvalidPortCapability
    else .ok key
  | Option.none => .error (.NoPortCapability port_id)

/-- Embeds `ChannelReader::get_next_sequence_send` for the mock context. -/
def get_next_sequence_send (ctx : MockContext) (pcid : PortId × ChannelId) :
    Option Sequence :=
  ctx.next_sequence_send pcid

/-- Embeds `ChannelKeeper::store_next_sequence_send` for the mock context. -/
def store_next_sequence_send (ctx : MockContext) (pcid : PortId × ChannelId)
    (seq : Sequence) : MockContext :=
  { ctx with next_sequence_send := mapInsert pcid seq ctx.next_sequence_send }

end MockContext

/-- Modelled from the spec: the exact `Debug` rendering of the commitment
input tuple comes from the external standard formatter; a simple
deterministic rendering of `(timeout_timestamp, timeout_height, data)`
stands in for it. -/
def commitmentInput (timeout_timestamp : Timestamp) (timeout_height : Height)
    (data : List Nat) : String :=
  (match timeout_timestamp.time with
    | some t => "Time(" ++ toString t ++ ")"
    | Option.none => "NoTime") ++ "," ++
  toString timeout_height.revision_number ++ "-" ++
    toString timeout_height.revision_height ++ "," ++
  toString data

/-- Embeds `ChannelKeeper::store_packet_commitment` for the mock context: stores
the hash of the rendered `(timeout_timestamp, timeout_height, data)`
tuple under the packet key; the hash function (sha256 in the source) is
an external collaborator and is a parameter. -/
def MockContext.store_packet_commitment (hash : String → String) (ctx : MockContext)
    (key : PortId × ChannelId × Sequence) (timeout_timestamp : Timestamp)
    (timeout_height : Height) (data : List Nat) : MockContext :=
  { ctx with
    packet_commitment :=
      mapInsert key (hash (commitmentInput timeout_timestamp timeout_height data))
        ctx.packet_commitment }

/-- Modelled from the spec: applying a send result to the store bumps
`next_sequence_send` and commits the packet-data hash
(`ChannelKeeper::store_packet_result`, send arm). -/
def MockContext.store_packet_result (hash : String → String) (ctx : MockContext)
    (general_result : PacketResult) : MockContext :=
  match general_result with
  | .Send res =>
    (ctx.store_next_sequence_send (res.port_id, res.channel_id) res.seq_number
      ).store_packet_commitment hash (res.port_id, res.channel_id, res.seq)
        res.timeout_timestamp res.timeout_height res.data

/-- Embeds `send_packet` (`ics04_channel::handler::send_packet`): validates the
packet against the read-only channel reader and, on success, returns the
handler output carrying the `SendPacketResult` delta, one log line and the
`SendPacket` event; each early return mirrors the source's checks in
order. -/
def send_packet (ctx : MockContext) (packet : Packet) :
    Except Ics4Kind (HandlerOutput PacketResult) :=
  match ctx.channel_end (packet.source_port, packet.source_channel) with
  | Option.none => .error (.ChannelNotFound packet.source_port packet.source_channel)
  | some source_channel_end =>
    if source_channel_end.state_matches ChanState.Closed then
      .error (.ChannelClosed packet.source_channel)
    else
      match ctx.authenticated_capability packet.source_port with
      | .error e => .error e
      | .ok _channel_cap =>
        if ¬ source_channel_end.counterparty_matches
            (ChanCounterparty.new packet.destination_port
              (some packet.destination_channel)) then
          .error (.InvalidPacketCounterparty packet.destination_port
            packet.destination_channel)
        else
          match ctx.connection_end source_channel_end.connHop0 with
          | Option.none => .error (.MissingConnection source_channel_end.connHop0)
          | some connection_end =>
            let client_id := connection_end.client_id
            match ctx.client_state client_id with
            | Option.none => .error (.MissingClientState client_id)
            | some client_state =>
              if client_state.is_frozen then
                .error (.FrozenClient connection_end.client_id)
              else
                let latest_height := client_state.latest_height
                let packet_height := packet.timeout_height
                if packet.timeout_height.is_zero = false ∧ packet_height ≤ latest_height then
                  .error (.LowPacketHeight latest_height packet.timeout_height)
                else
                  match ctx.client_consensus_state client_id latest_height with
                  | Option.none =>
                    .error (.MissingClientConsensusState client_id latest_height)
                  | some consensus_state =>
                    if consensus_state.timestamp.check_expiry packet.timeout_timestamp
                        = Expiry.Expired then
                      .error .LowPacketTimestamp
                    else
                      match ctx.get_next_sequence_send
                          (packet.source_port, packet.source_channel) with
                      | Option.none => .error .MissingNextSendSeq
                      | some next_seq_send =>
                        if packet.sequence ≠ next_seq_send then
                          .error (.InvalidPacketSequence packet.sequence next_seq_send)
                        else
                          .ok
                            { result := PacketResult.Send
                                { port_id := packet.source_port
                                  channel_id := packet.source_channel
                                  seq := packet.sequence
                                  seq_number := next_seq_send.increment
                                  timeout_height := packet.timeout_height
                                  timeout_timestamp := packet.timeout_timestamp
                                  data := packet.data }
                              log := ["success: packet send "]
                              events := [IbcEvent.SendPacket
                                ⟨packet_height, packet⟩] }

section Routing

variable {Ctx Msg Env Event Err : Type}

/-- The message loop of `deliver`: decode each opaque message into an
envelope and dispatch it against the interim context, accumulating events;
the first decode or dispatch error aborts the loop.  `dispatchFn` returns
the possibly mutated interim context alongside its verdict, mirroring the
`&mut` borrow the source hands to `dispatch`; the concrete decoding and
per-module dispatch are the collaborating functions of `Ics26Context`. -/
def deliverLoop (decode : Msg → Except Err Env)
    (dispatchFn : Ctx → Env → Except Err (List Event) × Ctx) :
    Ctx → List Msg → List Event → Except Err (List Event × Ctx)
  | interim, [], events => .ok (events, interim)
  | interim, any_msg :: rest, events =>
    match decode any_msg with
    | .error e => .error e
    | .ok envelope =>
      match dispatchFn interim envelope with
      | (.error e, _) => .error e
      | (.ok evs, interim2) => deliverLoop decode dispatchFn interim2 rest (events ++ evs)

/-- Embeds `deliver` (`ics26_routing::handler::deliver`): clones the caller's
context into an interim copy, runs the loop over it, and only when every
message succeeded swaps the interim copy back into the caller's context;
the returned pair is the verdict and the caller's context after the call. -/
def deliver (decode : Msg → Except Err Env)
    (dispatchFn : Ctx → Env → Except Err (List Event) × Ctx)
    (ctx : Ctx) (messages : List Msg) : Except Err (List Event) × Ctx :=
  match deliverLoop decode dispatchFn ctx messages [] with
  | .error e => (.error e, ctx)
  | .ok (events, ctx_interim) => (.ok events, ctx_interim)

end Routing

/-- Raw protobuf height `(revision_number, revision_height)`. -/
structure RawHeight where
  revision_number : Nat
  revision_height : Nat
deriving DecidableEq, Repr

/-- Embeds `Height::from` a raw height. -/
def Height.fromRaw (rh : RawHeight) : Height := ⟨rh.revision_number, rh.revision_height⟩

/-- Embeds `RawHeight::from` a domain height. -/
def Height.toRaw (h : Height) : RawHeight := ⟨h.revision_number, h.revision_height⟩

/-- Modelled from the spec: the wire codec is an external collaborator;
the protobuf `Any` payload of a client state is kept as a tagged variant
per scheme, with an extra arm for unrecognised type tags. -/
inductive RawAnyClientState where
  | Mock (header : RawHeight)
  | Tendermint (latest_height : RawHeight) (frozen : Bool)
  | unknownTag (type_url : String)
deriving DecidableEq, Repr

/-- Modelled from the spec: raw counterpart of `AnyConsensusState`, one
arm per scheme plus the unrecognised-tag arm. -/
inductive RawAnyConsensusState where
  | Mock (header : RawHeight)
  | Tendermint (timestamp : Option Nat)
  | unknownTag (type_url : String)
deriving DecidableEq, Repr

/-- Embeds `AnyClientState` into its raw form. -/
def AnyClientState.toRaw : AnyClientState → RawAnyClientState
  | .Mock s => .Mock s.header.height.toRaw
  | .Tendermint s => .Tendermint s.latest_height.toRaw s.frozen

/-- Embeds `AnyClientState::try_from` the raw form; an unrecognised tag fails to
decode. -/
def RawAnyClientState.toDomain : RawAnyClientState → Except String AnyClientState
  | .Mock rh => .ok (.Mock ⟨⟨Height.fromRaw rh⟩⟩)
  | .Tendermint rh fr => .ok (.Tendermint ⟨Height.fromRaw rh, fr⟩)
  | .unknownTag url => .error ("unknown client state type: " ++ url)

/-- Embeds `AnyConsensusState` into its raw form. -/
def AnyConsensusState.toRaw : AnyConsensusState → RawAnyConsensusState
  | .Mock s => .Mock s.header.height.toRaw
  | .Tendermint s => .Tendermint s.timestamp.time

/-- Embeds `AnyConsensusState::try_from` the raw form. -/
def RawAnyConsensusState.toDomain : RawAnyConsensusState → Except String AnyConsensusState
  | .Mock rh => .ok (.Mock ⟨⟨Height.fromRaw rh⟩⟩)
  | .Tendermint t => .ok (.Tendermint ⟨⟨t⟩⟩)
  | .unknownTag url => .error ("unknown consensus state type: " ++ url)

/-- Raw form of `MsgCreateClient`: both states are optional on the wire,
the signer is a plain string. -/
structure RawMsgCreateClient where
  client_state : Option RawAnyClientState
  consensus_state : Option RawAnyConsensusState
  signer : String
deriving DecidableEq, Repr

/-- Domain message triggering client creation, as in `MsgCreateAnyClient`. -/
structure MsgCreateAnyClient where
  client_state : AnyClientState
  consensus_state : AnyConsensusState
  signer : Signer
deriving DecidableEq, Repr

/-- Embeds `MsgCreateAnyClient::new`: constructing the message fails with
`RawClientAndConsensusStateTypesMismatch` carrying both declared types
whenever they disagree. -/
def MsgCreateAnyClient.new (client_state : AnyClientState)
    (consensus_state : AnyConsensusState) (signer : Signer) :
    Except Ics02Kind MsgCreateAnyClient :=
  if client_state.client_type ≠ consensus_state.client_type then
    .error (.RawClientAndConsensusStateTypesMismatch client_state.client_type
      consensus_state.client_type)
  else
    .ok ⟨client_state, consensus_state, signer⟩

/-- Embeds `MsgCreateAnyClient::try_from` the raw form: a missing or undecodable
state fails with the corresponding invalid-raw kind, then `new` enforces
the type agreement. -/
def MsgCreateAnyClient.try_from (raw : RawMsgCreateClient) :
    Except Ics02Kind MsgCreateAnyClient :=
  match raw.client_state with
  | Option.none => .error .InvalidRawClientState
  | some raw_client_state =>
    match raw.consensus_state with
    | Option.none => .error .InvalidRawConsensusState
    | some raw_consensus_state =>
      match raw_client_state.toDomain with
      | .error _ => .error .InvalidRawClientState
      | .ok cs =>
        match raw_consensus_state.toDomain with
        | .error _ => .error .InvalidRawConsensusState
        | .ok cons => MsgCreateAnyClient.new cs cons ⟨raw.signer⟩

/-- Embeds `RawMsgCreateClient::from` the domain message. -/
def MsgCreateAnyClient.into_raw (ics_msg : MsgCreateAnyClient) : RawMsgCreateClient :=
  { client_state := some ics_msg.client_state.toRaw
    consensus_state := some ics_msg.consensus_state.toRaw
    signer := ics_msg.signer.account }

/-- Raw channel counterparty: two plain strings, an empty channel id
standing for "absent". -/
structure RawChanCounterparty where
  port_id : String
  channel_id : String
deriving DecidableEq, Repr

/-- Raw channel end as carried on the wire: numeric state and ordering
tags, optional counterparty, hop strings and version. -/
structure RawChannelEnd where
  state : Nat
  ordering : Nat
  remote : Option RawChanCounterparty
  connection_hops : List String
  version : String
deriving DecidableEq, Repr

/-- Modelled from the spec: decoding the numeric channel-state tag, in
proto numbering (0 uninitialized, 1 init, 2 tryopen, 3 open, 4 closed);
any other tag fails. -/
def ChanState.from_i32 : Nat → Except Ics4Kind ChanState
  | 0 => .ok .Uninitialized
  | 1 => .ok .Init
  | 2 => .ok .TryOpen
  | 3 => .ok .Open
  | 4 => .ok .Closed
  | _ => .error .InvalidChannelState

/-- Numeric tag of a channel state. -/
def ChanState.to_i32 : ChanState → Nat
  | .Uninitialized => 0
  | .Init => 1
  | .TryOpen => 2
  | .Open => 3
  | .Closed => 4

/-- Modelled from the spec: decoding the numeric ordering tag, in proto
numbering (1 unordered, 2 ordered); any other tag fails. -/
def Order.from_i32 : Nat → Except Ics4Kind Order
  | 1 => .ok .Unordered
  | 2 => .ok .Ordered
  | _ => .error .InvalidOrdering

/-- Numeric tag of an ordering. -/
def Order.to_i32 : Order → Nat
  | .Unordered => 1
  | .Ordered => 2

/-- Embeds `Counterparty::try_from` the raw form: an empty raw channel id maps to
`None`, otherwise the id is parsed. -/
def ChanCounterparty.try_from (raw : RawChanCounterparty) :
    Except Ics4Kind ChanCounterparty :=
  match PortId.parse raw.port_id with
  | .error _ => .error .IdentifierError
  | .ok port_id =>
    if raw.channel_id.isEmpty then
      .ok ⟨port_id, Option.none⟩
    else
      match ChannelId.parse raw.channel_id with
      | .error _ => .error .IdentifierError
      | .ok channel_id => .ok ⟨port_id, some channel_id⟩

/-- Embeds `RawCounterparty::from` the domain counterparty: an absent channel id
maps back to the empty string. -/
def ChanCounterparty.into_raw (c : ChanCounterparty) : RawChanCounterparty :=
  { port_id := c.port_id.id
    channel_id := match c.channel_id with
      | some v => v.id
      | Option.none => "" }

/-- Parses the connection-hop strings left to right, failing on the first
invalid identifier. -/
def parseHops : List String → Except Ics4Kind (List ConnectionId)
  | [] => .ok []
  | s :: rest =>
    match ConnectionId.parse s with
    | .error _ => .error .IdentifierError
    | .ok cid =>
      match parseHops rest with
      | .error e => .error e
      | .ok cids => .ok (cid :: cids)

/-- Embeds `ChannelEnd::try_from` the raw form: decode the tags, require the
counterparty, parse the hops. -/
def ChannelEnd.try_from (raw : RawChannelEnd) : Except Ics4Kind ChannelEnd :=
  match ChanState.from_i32 raw.state with
  | .error e => .error e
  | .ok chan_state =>
    match Order.from_i32 raw.ordering with
    | .error e => .error e
    | .ok chan_ordering =>
      match raw.remote with
      | Option.none => .error .MissingCounterparty
      | some raw_counterparty =>
        match ChanCounterparty.try_from raw_counterparty with
        | .error e => .error e
        | .ok chan_counterparty =>
          match parseHops raw.connection_hops with
          | .error e => .error e
          | .ok hops =>
            .ok ⟨chan_state, chan_ordering, chan_counterparty, hops, raw.version⟩

/-- Embeds `RawChannel::from` the domain channel end. -/
def ChannelEnd.into_raw (ch : ChannelEnd) : RawChannelEnd :=
  { state := ch.state.to_i32
    ordering := ch.ordering.to_i32
    remote := some ch.remote.into_raw
    connection_hops := ch.connection_hops.map (fun c => c.id)
    version := ch.version }

/-- Modelled from the spec: `validate_version` is referenced as rejecting
an empty version, but the tests packaged with the source accept both the
empty and the single-space counterparty version, so the function accepts
its input verbatim. -/
def validate_version (version : String) : Except Ics4Kind String :=
  .ok version

/-- Handshake proof bundle, as in `Proofs`: the object proof with optional
auxiliary proofs and the height the proofs were taken at. -/
structure Proofs where
  object_proof : List Nat
  client_proof : Option (List Nat)
  consensus_proof : Option (List Nat)
  other_proof : Option (List Nat)
  height : Height
deriving DecidableEq, Repr

/-- Modelled from the spec: `Proofs::new` rejects a zero proof height and
an empty object proof, as the message decoding tests packaged with the
source exercise. -/
def Proofs.new (object_proof : List Nat) (client_proof : Option (List Nat))
    (consensus_proof : Option (List Nat)) (other_proof : Option (List Nat))
    (height : Height) : Except String Proofs :=
  if height.is_zero then .error "proofs height cannot be zero"
  else if object_proof.isEmpty then .error "proof cannot be empty"
  else .ok ⟨object_proof, client_proof, consensus_proof, other_proof, height⟩

/-- Raw form of `MsgChannelOpenTry`; `previous_channel_id` is a plain
string whose emptiness encodes absence. -/
structure RawMsgChannelOpenTry where
  port_id : String
  previous_channel_id : String
  channel : Option RawChannelEnd
  counterparty_version : String
  proof_init : List Nat
  proof_height : Option RawHeight
  signer : String
deriving DecidableEq, Repr

/-- Domain message for the second channel handshake step, as in
`MsgChannelOpenTry`. -/
structure MsgChannelOpenTry where
  port_id : PortId
  previous_channel_id : Option ChannelId
  channel : ChannelEnd
  counterparty_version : String
  proofs : Proofs
  signer : Signer
deriving DecidableEq, Repr

/-- Embeds `MsgChannelOpenTry::validate_basic`: the message's channel must name a
counterparty channel id. -/
def MsgChannelOpenTry.validate_basic (msg : MsgChannelOpenTry) : Except Ics4Kind Unit :=
  match msg.channel.remote.channel_id with
  | Option.none => .error .InvalidCounterpartyChannelId
  | some _ => .ok ()

/-- Embeds `MsgChannelOpenTry::try_from` the raw form, mirroring the source's
order: build the proofs (missing height is `MissingHeight`, a rejected
proof bundle `InvalidProof`), map an empty `previous_channel_id` to
`None`, parse the identifiers, require and decode the channel, validate
the version, and finally run `validate_basic`. -/
def MsgChannelOpenTry.try_from (raw_msg : RawMsgChannelOpenTry) :
    Except Ics4Kind MsgChannelOpenTry :=
  match raw_msg.proof_height with
  | Option.none => .error .MissingHeight
  | some raw_height =>
    match Proofs.new raw_msg.proof_init Option.none Option.none Option.none
        (Height.fromRaw raw_height) with
    | .error _ => .error .InvalidProof
    | .ok proofs =>
      match
        (if raw_msg.previous_channel_id.isEmpty then
          Except.ok Option.none
        else
          match ChannelId.parse raw_msg.previous_channel_id with
          | .error _ => .error Ics4Kind.IdentifierError
          | .ok v => .ok (some v)) with
      | .error e => .error e
      | .ok previous_channel_id =>
        match PortId.parse raw_msg.port_id with
        | .error _ => .error .IdentifierError
        | .ok port_id =>
          match raw_msg.channel with
          | Option.none => .error .MissingChannel
          | some raw_channel =>
            match ChannelEnd.try_from raw_channel with
            | .error e => .error e
            | .ok channel =>
              match validate_version raw_msg.counterparty_version with
              | .error e => .error e
              | .ok counterparty_version =>
                let msg : MsgChannelOpenTry :=
                  ⟨port_id, previous_channel_id, channel, counterparty_version,
                    proofs, ⟨raw_msg.signer⟩⟩
                match msg.validate_basic with
                | .error _ => .error .InvalidCounterpartyChannelId
                | .ok _ => .ok msg

/-- Embeds `RawMsgChannelOpenTry::from` the domain message: an absent
`previous_channel_id` maps back to the empty string. -/
def MsgChannelOpenTry.into_raw (domain_msg : MsgChannelOpenTry) : RawMsgChannelOpenTry :=
  { port_id := domain_msg.port_id.id
    previous_channel_id := match domain_msg.previous_channel_id with
      | some v => v.id
      | Option.none => ""
    channel := some domain_msg.channel.into_raw
    counterparty_version := domain_msg.counterparty_version
    proof_init := domain_msg.proofs.object_proof
    proof_height := some domain_msg.proofs.height.toRaw
    signer := domain_msg.signer.account }

/-- Well-formedness of a `MsgChannelOpenTry` value: every identifier it
carries passes validation, its channel names a counterparty channel id
(`validate_basic`), and its proof bundle is one that decoding can
produce (non-zero height, non-empty object proof, no auxiliary proofs). -/
def MsgChannelOpenTry.wf (m : MsgChannelOpenTry) : Bool :=
  validIdent 2 64 m.port_id.id
    && (m.previous_channel_id.all fun c => validIdent 10 64 c.id)
    && validIdent 2 64 m.channel.remote.port_id.id
    && (m.channel.remote.channel_id.any fun c => validIdent 10 64 c.id)
    && m.channel.connection_hops.all (fun c => validIdent 10 64 c.id)
    && !m.proofs.height.is_zero
    && !m.proofs.object_proof.isEmpty
    && m.proofs.client_proof.isNone
    && m.proofs.consensus_proof.isNone
    && m.proofs.other_proof.isNone

/-! Helper lemmas about the lexicographic height order. -/

theorem Height.le_def (a b : Height) : a ≤ b ↔ Height.le a b := Iff.rfl

theorem Height.lt_def (a b : Height) : a < b ↔ Height.lt a b := Iff.rfl

theorem Height.not_le_iff (a b : Height) : ¬ Height.le a b ↔ Height.lt b a := by
  unfold Height.le Height.lt
  omega

/-! Helper lemmas for the raw/domain round-trips. -/

theorem validIdent_not_empty (lo hi : Nat) (s : String)
    (h : validIdent lo hi s = true) (hlo : 1 ≤ lo) : s.isEmpty = false := by
  cases he : s.isEmpty
  · rfl
  · rw [String.isEmpty_iff] at he
    subst he
    unfold validIdent at h
    simp at h
    omega

theorem portIdParseOfValid (p : PortId) (h : validIdent 2 64 p.id = true) :
    PortId.parse p.id = .ok p := by
  unfold PortId.parse
  rw [if_pos h]

theorem portIdParseInv (s : String) (p : PortId) (h : PortId.parse s = .ok p) :
    p.id = s := by
  unfold PortId.parse at h
  split at h
  · cases Except.ok.inj h; rfl
  · exact Except.noConfusion h

theorem channelIdParseOfValid (c : ChannelId) (h : validIdent 10 64 c.id = true) :
    ChannelId.parse c.id = .ok c := by
  unfold ChannelId.parse
  rw [if_pos h]

theorem channelIdParseInv (s : String) (c : ChannelId)
    (h : ChannelId.parse s = .ok c) : c.id = s := by
  unfold ChannelId.parse at h
  split at h
  · cases Except.ok.inj h; rfl
  · exact Except.noConfusion h

theorem connectionIdParseOfValid (c : ConnectionId)
    (h : validIdent 10 64 c.id = true) : ConnectionId.parse c.id = .ok c := by
  unfold ConnectionId.parse
  rw [if_pos h]

theorem connectionIdParseInv (s : String) (c : ConnectionId)
    (h : ConnectionId.parse s = .ok c) : c.id = s := by
  unfold ConnectionId.parse at h
  split at h
  · cases Except.ok.inj h; rfl
  · exact Except.noConfusion h

theorem chanStateToFrom (s : ChanState) : ChanState.from_i32 s.to_i32 = .ok s := by
  cases s <;> rfl

theorem chanStateFromTo : ∀ (n : Nat) (s : ChanState),
    ChanState.from_i32 n = .ok s → ChanState.to_i32 s = n
  | 0, _, h => by cases Except.ok.inj h; rfl
  | 1, _, h => by cases Except.ok.inj h; rfl
  | 2, _, h => by cases Except.ok.inj h; rfl
  | 3, _, h => by cases Except.ok.inj h; rfl
  | 4, _, h => by cases Except.ok.inj h; rfl
  | _ + 5, _, h => Except.noConfusion h

theorem orderToFrom (o : Order) : Order.from_i32 o.to_i32 = .ok o := by
  cases o <;> rfl

theorem orderFromTo : ∀ (n : Nat) (o : Order),
    Order.from_i32 n = .ok o → Order.to_i32 o = n
  | 0, _, h => Except.noConfusion h
  | 1, _, h => by cases Except.ok.inj h; rfl
  | 2, _, h => by cases Except.ok.inj h; rfl
  | _ + 3, _, h => Except.noConfusion h

theorem ChanCounterparty.roundtrip (c : ChanCounterparty)
    (h1 : validIdent 2 64 c.port_id.id = true)
    (h2 : (c.channel_id.all fun x => validIdent 10 64 x.id) = true) :
    ChanCounterparty.try_from c.into_raw = .ok c := by
  rcases c with ⟨p, cc⟩
  rcases cc with _ | cid
  · simp only [ChanCounterparty.into_raw, ChanCounterparty.try_from,
      portIdParseOfValid p h1]
    rfl
  · simp only [Option.all] at h2
    simp only [ChanCounterparty.into_raw, ChanCounterparty.try_from,
      portIdParseOfValid p h1,
      validIdent_not_empty 10 64 cid.id h2 (by omega),
      channelIdParseOfValid cid h2]
    rfl

theorem ChanCounterparty.roundtrip_inv (rc : RawChanCounterparty)
    (c : ChanCounterparty) (h : ChanCounterparty.try_from rc = .ok c) :
    c.into_raw = rc := by
  rcases rc with ⟨rp, rcid⟩
  unfold ChanCounterparty.try_from at h
  rcases hp : PortId.parse rp with _ | p <;> simp only [hp] at h
  · exact Except.noConfusion h
  by_cases he : rcid.isEmpty = true
  · rw [if_pos he] at h
    cases Except.ok.inj h
    rw [String.isEmpty_iff] at he
    simp [ChanCounterparty.into_raw, portIdParseInv rp p hp, he]
  · rw [if_neg he] at h
    rcases hc : ChannelId.parse rcid with _ | cid <;> simp only [hc] at h
    · exact Except.noConfusion h
    cases Except.ok.inj h
    simp [ChanCounterparty.into_raw, portIdParseInv rp p hp,
      channelIdParseInv rcid cid hc]

theorem parseHops_roundtrip (hops : List ConnectionId)
    (h : (hops.all fun c => validIdent 10 64 c.id) = true) :
    parseHops (hops.map fun c => c.id) = .ok hops := by
  induction hops with
  | nil => rfl
  | cons c rest ih =>
    rw [List.all_cons, Bool.and_eq_true] at h
    simp only [List.map_cons, parseHops, connectionIdParseOfValid c h.1, ih h.2]

theorem parseHops_roundtrip_inv : ∀ (ss : List String) (hops : List ConnectionId),
    parseHops ss = .ok hops → hops.map (fun c => c.id) = ss
  | [], hops, h => by cases Except.ok.inj h; rfl
  | s :: rest, hops, h => by
    unfold parseHops at h
    rcases hc : ConnectionId.parse s with _ | cid <;> simp only [hc] at h
    · exact Except.noConfusion h
    rcases hr : parseHops rest with _ | cids <;> simp only [hr] at h
    · exact Except.noConfusion h
    cases Except.ok.inj h
    simp only [List.map_cons, connectionIdParseInv s cid hc,
      parseHops_roundtrip_inv rest cids hr]

theorem channelEnd_roundtrip (ch : ChannelEnd)
    (h1 : validIdent 2 64 ch.remote.port_id.id = true)
    (h2 : (ch.remote.channel_id.all fun x => validIdent 10 64 x.id) = true)
    (h3 : (ch.connection_hops.all fun c => validIdent 10 64 c.id) = true) :
    ChannelEnd.try_from ch.into_raw = .ok ch := by
  rcases ch with ⟨st, ord, remote, hops, ver⟩
  simp only [ChannelEnd.into_raw, ChannelEnd.try_from, chanStateToFrom,
    orderToFrom, ChanCounterparty.roundtrip remote h1 h2,
    parseHops_roundtrip hops h3]

theorem Height.fromRaw_toRaw (h : Height) : Height.fromRaw h.toRaw = h := rfl

theorem Height.toRaw_fromRaw (rh : RawHeight) : (Height.fromRaw rh).toRaw = rh := rfl

theorem Proofs.new_roundtrip (p : Proofs) (hz : p.height.is_zero = false)
    (ho : p.object_proof.isEmpty = false) (h1 : p.client_proof = Option.none)
    (h2 : p.consensus_proof = Option.none) (h3 : p.other_proof = Option.none) :
    Proofs.new p.object_proof Option.none Option.none Option.none p.height
      = .ok p := by
  rcases p with ⟨obj, cp, co, oo, ph⟩
  cases h1
  cases h2
  cases h3
  unfold Proofs.new
  rw [if_neg (by simp_all), if_neg (by simp_all)]

theorem Proofs.new_inv (o : List Nat) (c co oo : Option (List Nat)) (hh : Height)
    (p : Proofs) (h : Proofs.new o c co oo hh = .ok p) : p = ⟨o, c, co, oo, hh⟩ := by
  unfold Proofs.new at h
  split at h
  · exact Except.noConfusion h
  split at h
  · exact Except.noConfusion h
  · exact (Except.ok.inj h).symm

theorem channelEnd_roundtrip_inv (raw : RawChannelEnd) (ch : ChannelEnd)
    (h : ChannelEnd.try_from raw = .ok ch) : ch.into_raw = raw := by
  rcases raw with ⟨rst, rord, rremote, rhops, rver⟩
  unfold ChannelEnd.try_from at h
  rcases hst : ChanState.from_i32 rst with _ | st <;> simp only [hst] at h
  · exact Except.noConfusion h
  rcases hord : Order.from_i32 rord with _ | ord <;> simp only [hord] at h
  · exact Except.noConfusion h
  rcases rremote with _ | rc
  · exact Except.noConfusion h
  simp only at h
  rcases hcp : ChanCounterparty.try_from rc with _ | cp <;> simp only [hcp] at h
  · exact Except.noConfusion h
  rcases hh : parseHops rhops with _ | hops <;> simp only [hh] at h
  · exact Except.noConfusion h
  cases Except.ok.inj h
  simp only [ChannelEnd.into_raw, chanStateFromTo rst st hst,
    orderFromTo rord ord hord, ChanCounterparty.roundtrip_inv rc cp hcp,
    parseHops_roundtrip_inv rhops hops hh]

/-! ## Claim theorems -/

/-- C9: the context produced by `with_ack_sequence` has a
`next_sequence_ack` map equal to the original context's
`next_sequence_send` map with the entry `(port_id, chan_id) ↦ seq_number`
inserted: the ack-sequence builder reads its base map from
`next_sequence_send` rather than from `next_sequence_ack`. -/
theorem with_ack_sequence_reads_send_map (ctx : MockContext) (port_id : PortId)
    (chan_id : ChannelId) (seq_number : Sequence) :
    (ctx.with_ack_sequence port_id chan_id seq_number).next_sequence_ack
      = mapInsert (port_id, chan_id) seq_number ctx.next_sequence_send := rfl

/-- C5: constructing a `MsgCreateAnyClient` succeeds iff the two states'
declared client types agree; when they differ construction fails with
`RawClientAndConsensusStateTypesMismatch` carrying both types, and no
message value is produced. -/
theorem msg_create_any_client_new_spec (client_state : AnyClientState)
    (consensus_state : AnyConsensusState) (signer : Signer) :
    ((∃ m, MsgCreateAnyClient.new client_state consensus_state signer = .ok m)
        ↔ client_state.client_type = consensus_state.client_type)
    ∧ (client_state.client_type ≠ consensus_state.client_type →
        MsgCreateAnyClient.new client_state consensus_state signer
          = .error (.RawClientAndConsensusStateTypesMismatch client_state.client_type
              consensus_state.client_type))
    ∧ (client_state.client_type = consensus_state.client_type →
        MsgCreateAnyClient.new client_state consensus_state signer
          = .ok ⟨client_state, consensus_state, signer⟩) := by
  unfold MsgCreateAnyClient.new
  by_cases h : client_state.client_type = consensus_state.client_type <;>
    simp [h]

/-- C5 witness: a Mock client state with a Tendermint consensus state is
rejected with the mismatch error carrying both types. -/
theorem msg_create_any_client_new_spec_witness :
    MsgCreateAnyClient.new (.Mock ⟨⟨⟨0, 1⟩⟩⟩) (.Tendermint ⟨⟨some 3⟩⟩) ⟨"signer"⟩
      = .error (.RawClientAndConsensusStateTypesMismatch ClientType.Mock
          ClientType.Tendermint) :=
  (msg_create_any_client_new_spec (.Mock ⟨⟨⟨0, 1⟩⟩⟩) (.Tendermint ⟨⟨some 3⟩⟩)
    ⟨"signer"⟩).2.1 (by decide)

/-- C7: the Mock scheme's `check_header_and_update_state` fails exactly
when the client state's latest height is greater than or equal to the
header's height, and on success returns the pair
`(MockClientState(header), MockConsensusState(header))`, so the new
latest height equals the header's height. -/
theorem mock_check_header_spec (c : MockClient) (client_state : MockClientState)
    (header : MockHeader) :
    ((∃ e, c.check_header_and_update_state client_state header = .error e)
        ↔ header.height ≤ client_state.latest_height)
    ∧ (¬ header.height ≤ client_state.latest_height →
        c.check_header_and_update_state client_state header
          = .ok (⟨header⟩, ⟨header⟩))
    ∧ (∀ new_state new_consensus,
        c.check_header_and_update_state client_state header
          = .ok (new_state, new_consensus) →
        new_state.latest_height = header.height) := by
  unfold MockClient.check_header_and_update_state MockClientState.latest_height
  by_cases h : header.height ≤ client_state.header.height <;> simp [h]

/-- C7 witness: at latest height (0, 5) a header at height (0, 5) is
rejected, while a header at height (0, 6) yields the states rebuilt from
the header. -/
theorem mock_check_header_spec_witness :
    MockClient.mk.check_header_and_update_state ⟨⟨⟨0, 5⟩⟩⟩ ⟨⟨0, 6⟩⟩
      = .ok (⟨⟨⟨0, 6⟩⟩⟩, ⟨⟨⟨0, 6⟩⟩⟩)
    ∧ (∃ e, MockClient.mk.check_header_and_update_state ⟨⟨⟨0, 5⟩⟩⟩ ⟨⟨0, 5⟩⟩
        = .error e) :=
  ⟨(mock_check_header_spec MockClient.mk ⟨⟨⟨0, 5⟩⟩⟩ ⟨⟨0, 6⟩⟩).2.1 (by decide),
    (mock_check_header_spec MockClient.mk ⟨⟨⟨0, 5⟩⟩⟩ ⟨⟨0, 5⟩⟩).1.mpr (by decide)⟩

/-- C1: if processing any message of the batch fails, `deliver` returns
that error and the caller's context is unchanged; the interim context is
swapped back into the caller's context only when every message in the
batch succeeds. -/
theorem deliver_atomic {Ctx Msg Env Event Err : Type}
    (decode : Msg → Except Err Env)
    (dispatchFn : Ctx → Env → Except Err (List Event) × Ctx)
    (ctx : Ctx) (messages : List Msg) :
    ((∃ e, (deliver decode dispatchFn ctx messages).1 = .error e) →
      (deliver decode dispatchFn ctx messages).2 = ctx)
    ∧ (∀ events, (deliver decode dispatchFn ctx messages).1 = .ok events →
        deliverLoop decode dispatchFn ctx messages []
          = .ok (events, (deliver decode dispatchFn ctx messages).2))
    ∧ (∀ e, deliverLoop decode dispatchFn ctx messages [] = .error e →
        deliver decode dispatchFn ctx messages = (.error e, ctx)) := by
  unfold deliver
  rcases hloop : deliverLoop decode dispatchFn ctx messages [] with e | p
  · simp
  · rcases p with ⟨events, interim⟩
    simp

/-- A concrete decoder for exercising `deliver`: every raw message decodes
to the unit envelope. -/
def deliverDecodeW : Nat → Except String Unit := fun _ => .ok ()

/-- A concrete dispatcher for exercising `deliver`: it mutates the interim
context and fails. -/
def deliverDispatchW : Nat → Unit → Except String (List Unit) × Nat :=
  fun n _ => (.error "boom", n + 1)

/-- C1 witness: a batch whose single message's dispatch fails leaves the
caller's context at its pre-call value and surfaces the dispatch error. -/
theorem deliver_atomic_witness :
    (deliver deliverDecodeW deliverDispatchW 7 [0]).2 = 7
    ∧ (deliver deliverDecodeW deliverDispatchW 7 [0]).1 = Except.error "boom" :=
  ⟨(deliver_atomic deliverDecodeW deliverDispatchW 7 [0]).1 ⟨"boom", rfl⟩, rfl⟩

/-- C6: `AnyClient::check_header_and_update_state` fails with
`ClientArgsTypeMismatch` carrying the verifier's client type whenever the
dynamic variant of the supplied client state or of the supplied header
does not match the verifier's own scheme, and only a matching pair is
forwarded to the scheme's concrete verifier. -/
theorem any_client_check_header_spec
    (tmCheck : TmClientState → TmHeader → Except String (TmClientState × TmConsensusState))
    (c : AnyClient) (client_state : AnyClientState) (header : AnyHeader) :
    ((client_state.client_type ≠ c.client_type ∨ header.client_type ≠ c.client_type) →
      AnyClient.check_header_and_update_state tmCheck c client_state header
        = .error (.ClientArgsTypeMismatch c.client_type))
    ∧ (∀ cs h, c = .Mock → client_state = .Mock cs → header = .Mock h →
        AnyClient.check_header_and_update_state tmCheck c client_state header
          = liftMockCheck (MockClient.mk.check_header_and_update_state cs h))
    ∧ (∀ cs h, c = .Tendermint → client_state = .Tendermint cs → header = .Tendermint h →
        AnyClient.check_header_and_update_state tmCheck c client_state header
          = liftTmCheck (tmCheck cs h)) := by
  cases c <;> cases client_state <;> cases header <;>
    simp [AnyClient.check_header_and_update_state, AnyClient.client_type,
      AnyClientState.client_type, AnyHeader.client_type]

/-- C6 witness: a Mock header handed to the Tendermint verifier is
rejected with `ClientArgsTypeMismatch(Tendermint)`. -/
theorem any_client_check_header_spec_witness :
    AnyClient.check_header_and_update_state (fun _ _ => .error "unused")
      AnyClient.Tendermint (.Tendermint ⟨⟨0, 3⟩, false⟩) (.Mock ⟨⟨0, 4⟩⟩)
      = .error (.ClientArgsTypeMismatch ClientType.Tendermint) :=
  (any_client_check_header_spec (fun _ _ => .error "unused") AnyClient.Tendermint
    (.Tendermint ⟨⟨0, 3⟩, false⟩) (.Mock ⟨⟨0, 4⟩⟩)).1 (Or.inr (by decide))

/-- C8: in a context whose source channel exists and is not closed but
whose source port has no registered capability, `send_packet` fails with
`NoPortCapability(port_id)`; `authenticated_capability` yields
`NoPortCapability` for a port with no capability at all and
`InvalidPortCapability` for a capability that fails authentication. -/
theorem send_packet_port_capability_spec (ctx : MockContext) (packet : Packet)
    (ch : ChannelEnd)
    (hch : ctx.channel_end (packet.source_port, packet.source_channel) = some ch)
    (hnc : ch.state ≠ ChanState.Closed)
    (hcap : ctx.port_capabilities packet.source_port = Option.none) :
    send_packet ctx packet = .error (.NoPortCapability packet.source_port)
    ∧ (∀ p, ctx.lookup_module_by_port p = Option.none →
        ctx.authenticated_capability p = .error (.NoPortCapability p))
    ∧ (∀ p cap, ctx.lookup_module_by_port p = some cap →
        ctx.authenticate cap p = false →
        ctx.authenticated_capability p = .error .InvalidPortCapability) := by
  refine ⟨?_, ?_, ?_⟩
  · unfold send_packet
    rw [hch]
    simp only [ChannelEnd.state_matches]
    rw [if_neg (by simpa using hnc)]
    unfold MockContext.authenticated_capability MockContext.lookup_module_by_port
    rw [hcap]
  · intro p hp
    unfold MockContext.authenticated_capability
    rw [hp]
  · intro p cap hp hauth
    simp [MockContext.authenticate] at hauth

/-- The try-open channel end shared by the concrete send-packet
scenarios. -/
def chanW : ChannelEnd :=
  ⟨ChanState.TryOpen, Order.Unordered,
    ⟨⟨"defaultPort"⟩, some ⟨"defaultChannel"⟩⟩, [⟨"defaultConnection"⟩], "ics20"⟩

/-- The packet shared by the concrete send-packet scenarios: sequence 1,
default identifiers, timeout height (0, 6), no timeout timestamp. -/
def packetW : Packet :=
  ⟨⟨1⟩, ⟨"defaultPort"⟩, ⟨"defaultChannel"⟩, ⟨"defaultPort"⟩, ⟨"defaultChannel"⟩,
    [0], ⟨0, 6⟩, ⟨Option.none⟩⟩

/-- A context holding the channel but no port capability. -/
def noCapCtxW : MockContext :=
  MockContext.default.with_channel ⟨"defaultPort"⟩ ⟨"defaultChannel"⟩ chanW

/-- C8 witness: the default context with a try-open channel but no port
capability rejects the packet with `NoPortCapability`. -/
theorem send_packet_port_capability_spec_witness :
    send_packet noCapCtxW packetW = .error (.NoPortCapability ⟨"defaultPort"⟩) :=
  (send_packet_port_capability_spec noCapCtxW packetW chanW (by rfl) (by decide)
    (by rfl)).1

/-- Inversion of a successful `send_packet` run: the checks it performed
and the exact output it produced. -/
theorem sendPacketOkInv (ctx : MockContext) (packet : Packet)
    (out : HandlerOutput PacketResult)
    (h : send_packet ctx packet = .ok out) :
    ∃ next_seq_send,
      ctx.get_next_sequence_send (packet.source_port, packet.source_channel)
        = some next_seq_send
      ∧ packet.sequence = next_seq_send
      ∧ out = { result := PacketResult.Send
                  ⟨packet.source_port, packet.source_channel, packet.sequence,
                    next_seq_send.increment, packet.timeout_height,
                    packet.timeout_timestamp, packet.data⟩
                log := ["success: packet send "]
                events := [IbcEvent.SendPacket ⟨packet.timeout_height, packet⟩] } := by
  unfold send_packet at h
  rcases hch : ctx.channel_end (packet.source_port, packet.source_channel)
      with _ | source_channel_end <;> simp only [hch] at h
  · exact Except.noConfusion h
  by_cases hclosed : source_channel_end.state_matches ChanState.Closed = true
  · rw [if_pos hclosed] at h; exact Except.noConfusion h
  rw [if_neg hclosed] at h
  rcases hcap : ctx.authenticated_capability packet.source_port with e | cap <;>
    simp only [hcap] at h
  · exact Except.noConfusion h
  by_cases hcpm : source_channel_end.counterparty_matches
      (ChanCounterparty.new packet.destination_port (some packet.destination_channel))
      = true
  · rw [if_neg (not_not_intro hcpm)] at h
    rcases hconn : ctx.connection_end source_channel_end.connHop0
        with _ | connection_end <;> simp only [hconn] at h
    · exact Except.noConfusion h
    rcases hcs : ctx.client_state connection_end.client_id with _ | client_state <;>
      simp only [hcs] at h
    · exact Except.noConfusion h
    by_cases hfr : client_state.is_frozen = true
    · rw [if_pos hfr] at h; exact Except.noConfusion h
    rw [if_neg hfr] at h
    by_cases hhz : packet.timeout_height.is_zero = false
        ∧ packet.timeout_height ≤ client_state.latest_height
    · rw [if_pos hhz] at h; exact Except.noConfusion h
    rw [if_neg hhz] at h
    rcases hcons : ctx.client_consensus_state connection_end.client_id
        client_state.latest_height with _ | consensus_state <;> simp only [hcons] at h
    · exact Except.noConfusion h
    by_cases hexp : consensus_state.timestamp.check_expiry packet.timeout_timestamp
        = Expiry.Expired
    · rw [if_pos hexp] at h; exact Except.noConfusion h
    rw [if_neg hexp] at h
    rcases hseq : ctx.get_next_sequence_send (packet.source_port, packet.source_channel)
        with _ | next_seq_send <;> simp only [hseq] at h
    · exact Except.noConfusion h
    by_cases hne : packet.sequence ≠ next_seq_send
    · rw [if_pos hne] at h; exact Except.noConfusion h
    rw [if_neg hne] at h
    push_neg at hne
    injection h with h2
    subst hne
    exact ⟨packet.sequence, rfl, rfl, h2.symm⟩
  · rw [if_pos hcpm] at h; exact Except.noConfusion h

/-- C10: `send_packet` consumes the context through the read-only channel
reader (embedded as a pure function of the context), so every intended
state change is carried solely in the returned result: a successful call
returns exactly the `SendPacketResult` built from the packet and the
incremented `next_sequence_send`, the single success log line, and the
single `SendPacket` event. -/
theorem send_packet_reader_only_result (ctx : MockContext) (packet : Packet)
    (out : HandlerOutput PacketResult)
    (h : send_packet ctx packet = .ok out) :
    ∃ next_seq_send,
      ctx.get_next_sequence_send (packet.source_port, packet.source_channel)
        = some next_seq_send
      ∧ packet.sequence = next_seq_send
      ∧ out = { result := PacketResult.Send
                  ⟨packet.source_port, packet.source_channel, packet.sequence,
                    next_seq_send.increment, packet.timeout_height,
                    packet.timeout_timestamp, packet.data⟩
                log := ["success: packet send "]
                events := [IbcEvent.SendPacket ⟨packet.timeout_height, packet⟩] } :=
  sendPacketOkInv ctx packet out h

/-- Partial evaluation of `send_packet` for a context passing the channel,
capability, counterparty, connection and frozen-client checks: the run
reduces to the timeout-height check and everything after it. -/
theorem sendPacketEval (ctx : MockContext) (packet : Packet) (ch : ChannelEnd)
    (conn : ConnectionEnd) (client_state : AnyClientState)
    (hch : ctx.channel_end (packet.source_port, packet.source_channel) = some ch)
    (hnc : ch.state ≠ ChanState.Closed)
    (hcap : ∃ cap, ctx.port_capabilities packet.source_port = some cap)
    (hcpm : ch.remote = ⟨packet.destination_port, some packet.destination_channel⟩)
    (hconn : ctx.connection_end ch.connHop0 = some conn)
    (hcs : ctx.client_state conn.client_id = some client_state)
    (hfrozen : client_state.is_frozen = false) :
    send_packet ctx packet =
      if packet.timeout_height.is_zero = false
          ∧ packet.timeout_height ≤ client_state.latest_height then
        .error (.LowPacketHeight client_state.latest_height packet.timeout_height)
      else
        match ctx.client_consensus_state conn.client_id client_state.latest_height with
        | Option.none =>
          .error (.MissingClientConsensusState conn.client_id client_state.latest_height)
        | some consensus_state =>
          if consensus_state.timestamp.check_expiry packet.timeout_timestamp
              = Expiry.Expired then
            .error .LowPacketTimestamp
          else
            match ctx.get_next_sequence_send
                (packet.source_port, packet.source_channel) with
            | Option.none => .error .MissingNextSendSeq
            | some next_seq_send =>
              if packet.sequence ≠ next_seq_send then
                .error (.InvalidPacketSequence packet.sequence next_seq_send)
              else
                .ok { result := PacketResult.Send
                        { port_id := packet.source_port
                          channel_id := packet.source_channel
                          seq := packet.sequence
                          seq_number := next_seq_send.increment
                          timeout_height := packet.timeout_height
                          timeout_timestamp := packet.timeout_timestamp
                          data := packet.data }
                      log := ["success: packet send "]
                      events := [IbcEvent.SendPacket ⟨packet.timeout_height, packet⟩] } := by
  obtain ⟨cap, hcap⟩ := hcap
  have hac : ctx.authenticated_capability packet.source_port = .ok cap := by
    unfold MockContext.authenticated_capability MockContext.lookup_module_by_port
    rw [hcap]
    simp [MockContext.authenticate]
  unfold send_packet
  rw [hch]
  simp only [ChannelEnd.state_matches]
  rw [if_neg (by simpa using hnc)]
  rw [hac]
  simp only [ChannelEnd.counterparty_matches, ChanCounterparty.new]
  rw [if_neg (not_not_intro (by simp [hcpm]))]
  simp only [hconn, hcs]
  rw [if_neg (by simp [hfrozen])]

/-- Embeds `authenticated_capability` only ever raises the two port-capability
error kinds. -/
theorem authenticatedCapabilityErr (ctx : MockContext) (p : PortId) (e : Ics4Kind)
    (h : ctx.authenticated_capability p = .error e) :
    e = .NoPortCapability p ∨ e = .InvalidPortCapability := by
  unfold MockContext.authenticated_capability at h
  rcases hl : ctx.lookup_module_by_port p with _ | key <;> simp only [hl] at h
  · exact Or.inl (Except.error.inj h).symm
  · rw [if_neg (by simp [MockContext.authenticate])] at h
    exact Except.noConfusion h

/-- Inversion of a `send_packet` run that failed with `LowPacketHeight`:
the packet's timeout height was non-zero and not strictly above the
client's latest height, and the error carries exactly that latest height
and the packet's timeout height. -/
theorem sendPacketLowHeightInv (ctx : MockContext) (packet : Packet) (l t : Height)
    (h : send_packet ctx packet = .error (.LowPacketHeight l t)) :
    packet.timeout_height.is_zero = false ∧ packet.timeout_height ≤ l
      ∧ t = packet.timeout_height := by
  unfold send_packet at h
  rcases hch : ctx.channel_end (packet.source_port, packet.source_channel)
      with _ | source_channel_end <;> simp only [hch] at h
  · exact Ics4Kind.noConfusion (Except.error.inj h)
  by_cases hclosed : source_channel_end.state_matches ChanState.Closed = true
  · rw [if_pos hclosed] at h
    exact Ics4Kind.noConfusion (Except.error.inj h)
  rw [if_neg hclosed] at h
  rcases hcap : ctx.authenticated_capability packet.source_port with e | cap <;>
    simp only [hcap] at h
  · rcases authenticatedCapabilityErr ctx packet.source_port e hcap with he | he <;>
      rw [he] at h <;> exact Ics4Kind.noConfusion (Except.error.inj h)
  by_cases hcpm : source_channel_end.counterparty_matches
      (ChanCounterparty.new packet.destination_port (some packet.destination_channel))
      = true
  · rw [if_neg (not_not_intro hcpm)] at h
    rcases hconn : ctx.connection_end source_channel_end.connHop0
        with _ | connection_end <;> simp only [hconn] at h
    · exact Ics4Kind.noConfusion (Except.error.inj h)
    rcases hcs : ctx.client_state connection_end.client_id with _ | client_state <;>
      simp only [hcs] at h
    · exact Ics4Kind.noConfusion (Except.error.inj h)
    by_cases hfr : client_state.is_frozen = true
    · rw [if_pos hfr] at h
      exact Ics4Kind.noConfusion (Except.error.inj h)
    rw [if_neg hfr] at h
    by_cases hhz : packet.timeout_height.is_zero = false
        ∧ packet.timeout_height ≤ client_state.latest_height
    · rw [if_pos hhz] at h
      have h2 := Except.error.inj h
      injection h2 with ha hb
      exact ⟨hhz.1, ha ▸ hhz.2, hb.symm⟩
    rw [if_neg hhz] at h
    rcases hcons : ctx.client_consensus_state connection_end.client_id
        client_state.latest_height with _ | consensus_state <;> simp only [hcons] at h
    · exact Ics4Kind.noConfusion (Except.error.inj h)
    by_cases hexp : consensus_state.timestamp.check_expiry packet.timeout_timestamp
        = Expiry.Expired
    · rw [if_pos hexp] at h
      exact Ics4Kind.noConfusion (Except.error.inj h)
    rw [if_neg hexp] at h
    rcases hseq : ctx.get_next_sequence_send (packet.source_port, packet.source_channel)
        with _ | next_seq_send <;> simp only [hseq] at h
    · exact Ics4Kind.noConfusion (Except.error.inj h)
    by_cases hne : packet.sequence ≠ next_seq_send
    · rw [if_pos hne] at h
      exact Ics4Kind.noConfusion (Except.error.inj h)
    rw [if_neg hne] at h
    exact Except.noConfusion h
  · rw [if_pos hcpm] at h
    exact Ics4Kind.noConfusion (Except.error.inj h)

/-- The open connection end shared by the concrete send-packet
scenarios. -/
def connW : ConnectionEnd :=
  ⟨ConnState.Open, ⟨"defaultClient"⟩,
    ⟨⟨"defaultClient"⟩, some ⟨"defaultConnection"⟩⟩, ["1"], 0⟩

/-- A context in which every send precondition holds: client at
Height(0, 0), open connection, port capability, try-open channel, next
send sequence 1. -/
def goodCtxW : MockContext :=
  ((((MockContext.default.with_client ⟨"defaultClient"⟩ ⟨0, 0⟩).with_connection
      ⟨"defaultConnection"⟩ connW).with_port_capability
      ⟨"defaultPort"⟩).with_channel ⟨"defaultPort"⟩ ⟨"defaultChannel"⟩
      chanW).with_send_sequence ⟨"defaultPort"⟩ ⟨"defaultChannel"⟩ ⟨1⟩

/-- C10 witness: on the good context the call succeeds and the returned
output is exactly the canonical result, log line and event. -/
theorem send_packet_reader_only_result_witness :
    ∃ next_seq_send,
      goodCtxW.get_next_sequence_send (packetW.source_port, packetW.source_channel)
        = some next_seq_send
      ∧ packetW.sequence = next_seq_send
      ∧ ({ result := PacketResult.Send
            ⟨⟨"defaultPort"⟩, ⟨"defaultChannel"⟩, ⟨1⟩, ⟨2⟩, ⟨0, 6⟩, ⟨Option.none⟩, [0]⟩
           log := ["success: packet send "]
           events := [IbcEvent.SendPacket ⟨⟨0, 6⟩, packetW⟩]
           : HandlerOutput PacketResult })
        = { result := PacketResult.Send
              ⟨packetW.source_port, packetW.source_channel, packetW.sequence,
                next_seq_send.increment, packetW.timeout_height,
                packetW.timeout_timestamp, packetW.data⟩
            log := ["success: packet send "]
            events := [IbcEvent.SendPacket ⟨packetW.timeout_height, packetW⟩] } :=
  send_packet_reader_only_result goodCtxW packetW
    { result := PacketResult.Send
        ⟨⟨"defaultPort"⟩, ⟨"defaultChannel"⟩, ⟨1⟩, ⟨2⟩, ⟨0, 6⟩, ⟨Option.none⟩, [0]⟩
      log := ["success: packet send "]
      events := [IbcEvent.SendPacket ⟨⟨0, 6⟩, packetW⟩] } (by rfl)

/-- C3: with the channel, capability, counterparty, connection and
frozen-client checks passing, a non-zero timeout height that is not
strictly greater than the client's latest height makes `send_packet` fail
with `LowPacketHeight(latest_height, timeout_height)`, while a zero
timeout height can never produce a `LowPacketHeight` error. -/
theorem send_packet_low_packet_height_spec (ctx : MockContext) (packet : Packet)
    (ch : ChannelEnd) (conn : ConnectionEnd) (client_state : AnyClientState)
    (hch : ctx.channel_end (packet.source_port, packet.source_channel) = some ch)
    (hnc : ch.state ≠ ChanState.Closed)
    (hcap : ∃ cap, ctx.port_capabilities packet.source_port = some cap)
    (hcpm : ch.remote = ⟨packet.destination_port, some packet.destination_channel⟩)
    (hconn : ctx.connection_end ch.connHop0 = some conn)
    (hcs : ctx.client_state conn.client_id = some client_state)
    (hfrozen : client_state.is_frozen = false) :
    (packet.timeout_height.is_zero = false
        ∧ packet.timeout_height ≤ client_state.latest_height →
      send_packet ctx packet
        = .error (.LowPacketHeight client_state.latest_height packet.timeout_height))
    ∧ (packet.timeout_height.is_zero = true →
        ∀ l t, send_packet ctx packet ≠ .error (.LowPacketHeight l t)) := by
  constructor
  · intro hhz
    rw [sendPacketEval ctx packet ch conn client_state hch hnc hcap hcpm hconn hcs
      hfrozen]
    rw [if_pos hhz]
  · intro hz l t hcontra
    have hinv := (sendPacketLowHeightInv ctx packet l t hcontra).1
    rw [hz] at hinv
    exact Bool.noConfusion hinv

/-- The same scenario context but with the client at Height(0, 2). -/
def lowHeightCtxW : MockContext :=
  ((((MockContext.default.with_client ⟨"defaultClient"⟩ ⟨0, 2⟩).with_connection
      ⟨"defaultConnection"⟩ connW).with_port_capability
      ⟨"defaultPort"⟩).with_channel ⟨"defaultPort"⟩ ⟨"defaultChannel"⟩
      chanW).with_send_sequence ⟨"defaultPort"⟩ ⟨"defaultChannel"⟩ ⟨1⟩

/-- The scenario packet with timeout height (0, 1). -/
def lowHeightPacketW : Packet := { packetW with timeout_height := ⟨0, 1⟩ }

/-- C3 witness: client at Height(0, 2) and packet timeout height (0, 1)
yields exactly `LowPacketHeight(Height(0, 2), Height(0, 1))`. -/
theorem send_packet_low_packet_height_spec_witness :
    send_packet lowHeightCtxW lowHeightPacketW
      = .error (.LowPacketHeight ⟨0, 2⟩ ⟨0, 1⟩) :=
  (send_packet_low_packet_height_spec lowHeightCtxW lowHeightPacketW chanW connW
    (.Mock ⟨⟨⟨0, 2⟩⟩⟩) (by rfl) (by decide) ⟨Capability.new, by rfl⟩ (by rfl) (by rfl)
    (by rfl) (by rfl)).1 (by decide)

/-- C2: with every earlier send precondition satisfied, `send_packet`
succeeds iff the packet's sequence equals the stored
`next_sequence_send` (failing with `InvalidPacketSequence` otherwise); on
success the returned result bumps `next_sequence_send` by exactly one, its
application to the store records the packet-data hash under
`(source_port, source_channel, sequence)`, and the output emits one
`SendPacket` event. -/
theorem send_packet_sequence_spec (hash : String → String) (ctx : MockContext)
    (packet : Packet) (ch : ChannelEnd) (conn : ConnectionEnd)
    (client_state : AnyClientState) (consensus_state : AnyConsensusState)
    (next_seq_send : Sequence)
    (hch : ctx.channel_end (packet.source_port, packet.source_channel) = some ch)
    (hnc : ch.state ≠ ChanState.Closed)
    (hcap : ∃ cap, ctx.port_capabilities packet.source_port = some cap)
    (hcpm : ch.remote = ⟨packet.destination_port, some packet.destination_channel⟩)
    (hconn : ctx.connection_end ch.connHop0 = some conn)
    (hcs : ctx.client_state conn.client_id = some client_state)
    (hfrozen : client_state.is_frozen = false)
    (hheight : packet.timeout_height.is_zero = true
      ∨ client_state.latest_height < packet.timeout_height)
    (hcons : ctx.client_consensus_state conn.client_id client_state.latest_height
      = some consensus_state)
    (hts : consensus_state.timestamp.check_expiry packet.timeout_timestamp
      ≠ Expiry.Expired)
    (hseq : ctx.get_next_sequence_send (packet.source_port, packet.source_channel)
      = some next_seq_send) :
    ((∃ out, send_packet ctx packet = .ok out) ↔ packet.sequence = next_seq_send)
    ∧ (packet.sequence ≠ next_seq_send →
        send_packet ctx packet
          = .error (.InvalidPacketSequence packet.sequence next_seq_send))
    ∧ (packet.sequence = next_seq_send →
        send_packet ctx packet = .ok
          { result := PacketResult.Send
              { port_id := packet.source_port
                channel_id := packet.source_channel
                seq := packet.sequence
                seq_number := next_seq_send.increment
                timeout_height := packet.timeout_height
                timeout_timestamp := packet.timeout_timestamp
                data := packet.data }
            log := ["success: packet send "]
            events := [IbcEvent.SendPacket ⟨packet.timeout_height, packet⟩] })
    ∧ (∀ out, send_packet ctx packet = .ok out →
        (ctx.store_packet_result hash out.result).next_sequence_send
            (packet.source_port, packet.source_channel)
          = some next_seq_send.increment
        ∧ (ctx.store_packet_result hash out.result).packet_commitment
            (packet.source_port, packet.source_channel, packet.sequence)
          = some (hash (commitmentInput packet.timeout_timestamp
              packet.timeout_height packet.data))
        ∧ out.events = [IbcEvent.SendPacket ⟨packet.timeout_height, packet⟩]) := by
  have hcond : ¬ (packet.timeout_height.is_zero = false
      ∧ packet.timeout_height ≤ client_state.latest_height) := by
    rcases hheight with hz | hlt
    · intro hand
      rw [hz] at hand
      exact Bool.noConfusion hand.1
    · intro hand
      exact ((Height.not_le_iff _ _).mpr hlt) hand.2
  have hmain : send_packet ctx packet =
      if packet.sequence ≠ next_seq_send then
        Except.error (.InvalidPacketSequence packet.sequence next_seq_send)
      else
        Except.ok
          { result := PacketResult.Send
              { port_id := packet.source_port
                channel_id := packet.source_channel
                seq := packet.sequence
                seq_number := next_seq_send.increment
                timeout_height := packet.timeout_height
                timeout_timestamp := packet.timeout_timestamp
                data := packet.data }
            log := ["success: packet send "]
            events := [IbcEvent.SendPacket ⟨packet.timeout_height, packet⟩] } := by
    rw [sendPacketEval ctx packet ch conn client_state hch hnc hcap hcpm hconn hcs
      hfrozen]
    rw [if_neg hcond]
    simp only [hcons]
    rw [if_neg hts]
    simp only [hseq]
  refine ⟨⟨?_, ?_⟩, ?_, ?_, ?_⟩
  · rintro ⟨out, hout⟩
    rw [hmain] at hout
    by_cases hne : packet.sequence ≠ next_seq_send
    · rw [if_pos hne] at hout
      exact Except.noConfusion hout
    · exact not_not.mp hne
  · intro heq
    exact ⟨_, by rw [hmain, if_neg (not_not_intro heq)]⟩
  · intro hne
    rw [hmain, if_pos hne]
  · intro heq
    rw [hmain, if_neg (not_not_intro heq)]
  · intro out hout
    rw [hmain] at hout
    by_cases hne : packet.sequence ≠ next_seq_send
    · rw [if_pos hne] at hout
      exact Except.noConfusion hout
    rw [if_neg hne] at hout
    have hout2 := Except.ok.inj hout
    rw [← hout2]
    refine ⟨?_, ?_, rfl⟩ <;>
      simp [MockContext.store_packet_result, MockContext.store_next_sequence_send,
        MockContext.store_packet_commitment, mapInsert]

/-- C2 witness: on the good context the call succeeds with sequence 1,
bumping the sequence to 2. -/
theorem send_packet_sequence_spec_witness :
    send_packet goodCtxW packetW = .ok
      { result := PacketResult.Send
          ⟨⟨"defaultPort"⟩, ⟨"defaultChannel"⟩, ⟨1⟩, ⟨2⟩, ⟨0, 6⟩, ⟨Option.none⟩, [0]⟩
        log := ["success: packet send "]
        events := [IbcEvent.SendPacket ⟨⟨0, 6⟩, packetW⟩] } :=
  (send_packet_sequence_spec (fun s => s) goodCtxW packetW chanW connW
    (.Mock ⟨⟨⟨0, 0⟩⟩⟩) (.Mock ⟨⟨⟨0, 0⟩⟩⟩) ⟨1⟩ (by rfl) (by decide)
    ⟨Capability.new, by rfl⟩ (by rfl) (by rfl) (by rfl) (by rfl)
    (Or.inr (by decide)) (by rfl) (by decide) (by rfl)).2.2.1 (by rfl)

/-- Domain-to-raw-to-domain round-trip for `MsgCreateAnyClient`: a message
whose states' client types agree decodes back from its raw form. -/
theorem createClient_roundtrip (m : MsgCreateAnyClient)
    (hm : m.client_state.client_type = m.consensus_state.client_type) :
    MsgCreateAnyClient.try_from m.into_raw = .ok m := by
  rcases m with ⟨cs, cons, sg⟩
  cases cs <;> cases cons
  · rfl
  · exact ClientType.noConfusion hm
  · exact ClientType.noConfusion hm
  · rfl

/-- Raw-to-domain-to-raw round-trip for `MsgCreateClient`: a raw value
that decodes re-encodes to itself. -/
theorem createClient_roundtrip_inv (r : RawMsgCreateClient) (m : MsgCreateAnyClient)
    (h : MsgCreateAnyClient.try_from r = .ok m) : m.into_raw = r := by
  rcases r with ⟨rcs, rcons, sg⟩
  rcases rcs with _ | racs
  · exact Except.noConfusion h
  rcases rcons with _ | racons
  · cases racs <;> exact Except.noConfusion h
  cases racs <;> cases racons <;>
    simp [MsgCreateAnyClient.try_from, RawAnyClientState.toDomain,
      RawAnyConsensusState.toDomain, MsgCreateAnyClient.new,
      AnyClientState.client_type, AnyConsensusState.client_type] at h <;>
    subst h <;> rfl

/-- Domain-to-raw-to-domain round-trip for `MsgChannelOpenTry`: a
well-formed message decodes back from its raw form; in particular an
absent `previous_channel_id` goes through the empty raw string. -/
theorem chanOpenTry_roundtrip (m : MsgChannelOpenTry) (hwf : m.wf = true) :
    MsgChannelOpenTry.try_from m.into_raw = .ok m := by
  simp only [MsgChannelOpenTry.wf, Bool.and_eq_true, Bool.not_eq_true',
    Option.isNone_iff_eq_none] at hwf
  obtain ⟨⟨⟨⟨⟨⟨⟨⟨⟨h1, h2⟩, h3⟩, h4⟩, h5⟩, h6⟩, h7⟩, h8⟩, h9⟩, h10⟩ := hwf
  have h4a : (m.channel.remote.channel_id.all fun x => validIdent 10 64 x.id)
      = true := by
    rcases hcc : m.channel.remote.channel_id with _ | c
    · rw [hcc] at h4; exact Bool.noConfusion h4
    · rw [hcc] at h4
      simpa [Option.any, Option.all] using h4
  obtain ⟨c0, hcc⟩ : ∃ c0, m.channel.remote.channel_id = some c0 := by
    rcases hcc : m.channel.remote.channel_id with _ | c
    · rw [hcc] at h4; exact Bool.noConfusion h4
    · exact ⟨c, rfl⟩
  unfold MsgChannelOpenTry.try_from MsgChannelOpenTry.into_raw
  simp only [Height.fromRaw_toRaw,
    Proofs.new_roundtrip m.proofs h6 h7 h8 h9 h10]
  rcases hp : m.previous_channel_id with _ | pc
  · simp only [portIdParseOfValid m.port_id h1,
      channelEnd_roundtrip m.channel h3 h4a h5, validate_version,
      MsgChannelOpenTry.validate_basic, hcc]
    rw [if_pos (by rfl)]
    simp only [hcc]
    rw [← hp]
  · have hne : pc.id.isEmpty = false := by
      rw [hp] at h2
      simp only [Option.all] at h2
      exact validIdent_not_empty 10 64 pc.id h2 (by omega)
    have hpc : validIdent 10 64 pc.id = true := by
      rw [hp] at h2
      simpa [Option.all] using h2
    simp only [portIdParseOfValid m.port_id h1,
      channelEnd_roundtrip m.channel h3 h4a h5, validate_version,
      MsgChannelOpenTry.validate_basic, hcc]
    rw [if_neg (by simp [hne])]
    simp only [channelIdParseOfValid pc hpc, hcc]
    rw [← hp]

/-- Raw-to-domain-to-raw round-trip for `MsgChannelOpenTry`: a raw value
that decodes re-encodes to itself; in particular an empty raw
`previous_channel_id` maps to `None` and back to the empty string. -/
theorem chanOpenTry_roundtrip_inv (r : RawMsgChannelOpenTry) (m : MsgChannelOpenTry)
    (h : MsgChannelOpenTry.try_from r = .ok m) : m.into_raw = r := by
  rcases r with ⟨rp, rprev, rchan, rcv, rproof, rph, rsg⟩
  unfold MsgChannelOpenTry.try_from at h
  rcases rph with _ | rawh
  · exact Except.noConfusion h
  simp only at h
  rcases hpn : Proofs.new rproof Option.none Option.none Option.none
      (Height.fromRaw rawh) with _ | prf <;> simp only [hpn] at h
  · exact Except.noConfusion h
  have hprf := Proofs.new_inv _ _ _ _ _ _ hpn
  by_cases hre : rprev.isEmpty = true
  · rw [if_pos hre] at h
    rcases hport : PortId.parse rp with _ | p <;> simp only [hport] at h
    · exact Except.noConfusion h
    rcases rchan with _ | rawchan
    · exact Except.noConfusion h
    simp only at h
    rcases hchan : ChannelEnd.try_from rawchan with _ | chn <;> simp only [hchan] at h
    · exact Except.noConfusion h
    simp only [validate_version] at h
    rcases hvb : MsgChannelOpenTry.validate_basic
        ⟨p, Option.none, chn, rcv, prf, ⟨rsg⟩⟩ with _ | u <;> simp only [hvb] at h
    · exact Except.noConfusion h
    cases Except.ok.inj h
    rw [String.isEmpty_iff] at hre
    subst hprf
    simp [MsgChannelOpenTry.into_raw, portIdParseInv rp p hport,
      channelEnd_roundtrip_inv rawchan chn hchan, Height.toRaw_fromRaw, hre]
  · rw [if_neg hre] at h
    rcases hprev : ChannelId.parse rprev with _ | pc <;> simp only [hprev] at h
    · exact Except.noConfusion h
    rcases hport : PortId.parse rp with _ | p <;> simp only [hport] at h
    · exact Except.noConfusion h
    rcases rchan with _ | rawchan
    · exact Except.noConfusion h
    simp only at h
    rcases hchan : ChannelEnd.try_from rawchan with _ | chn <;> simp only [hchan] at h
    · exact Except.noConfusion h
    simp only [validate_version] at h
    rcases hvb : MsgChannelOpenTry.validate_basic
        ⟨p, some pc, chn, rcv, prf, ⟨rsg⟩⟩ with _ | u <;> simp only [hvb] at h
    · exact Except.noConfusion h
    cases Except.ok.inj h
    subst hprf
    simp [MsgChannelOpenTry.into_raw, portIdParseInv rp p hport,
      channelIdParseInv rprev pc hprev,
      channelEnd_roundtrip_inv rawchan chn hchan, Height.toRaw_fromRaw]

/-- C4: converting a well-formed domain message to its raw protobuf form
and back yields the original (for `MsgCreateAnyClient`, well-formed means
the two states' client types agree; for `MsgChannelOpenTry`, that its
identifiers validate, its channel names a counterparty channel and its
proof bundle is decodable), and converting a decodable raw form to domain
and back yields the original raw value, the empty raw
`previous_channel_id` string mapping to `None` and back to the empty
string. -/
theorem msg_raw_roundtrip_spec :
    (∀ m : MsgCreateAnyClient,
        m.client_state.client_type = m.consensus_state.client_type →
        MsgCreateAnyClient.try_from m.into_raw = .ok m)
    ∧ (∀ (r : RawMsgCreateClient) (m : MsgCreateAnyClient),
        MsgCreateAnyClient.try_from r = .ok m → m.into_raw = r)
    ∧ (∀ m : MsgChannelOpenTry, m.wf = true →
        MsgChannelOpenTry.try_from m.into_raw = .ok m)
    ∧ (∀ (r : RawMsgChannelOpenTry) (m : MsgChannelOpenTry),
        MsgChannelOpenTry.try_from r = .ok m → m.into_raw = r) :=
  ⟨createClient_roundtrip, createClient_roundtrip_inv, chanOpenTry_roundtrip,
    chanOpenTry_roundtrip_inv⟩

/-- A concrete well-formed channel-open-try message with no previous
channel id. -/
def tryMsgW : MsgChannelOpenTry :=
  ⟨⟨"defaultPort"⟩, Option.none, chanW, "",
    ⟨[1, 2], Option.none, Option.none, Option.none, ⟨0, 10⟩⟩, ⟨"signer"⟩⟩

/-- A concrete create-client message over the Mock scheme. -/
def createMsgW : MsgCreateAnyClient :=
  ⟨.Mock ⟨⟨⟨0, 5⟩⟩⟩, .Mock ⟨⟨⟨0, 5⟩⟩⟩, ⟨"signer"⟩⟩

/-- C4 witness: both messages round-trip on concrete values, and the
absent previous channel id goes through the empty raw string. -/
theorem msg_raw_roundtrip_spec_witness :
    MsgCreateAnyClient.try_from createMsgW.into_raw = .ok createMsgW
    ∧ MsgChannelOpenTry.try_from tryMsgW.into_raw = .ok tryMsgW
    ∧ tryMsgW.into_raw.previous_channel_id = ""
    ∧ tryMsgW.previous_channel_id = Option.none :=
  ⟨msg_raw_roundtrip_spec.1 createMsgW (by rfl),
    msg_raw_roundtrip_spec.2.2.1 tryMsgW (by rfl),
    rfl, rfl⟩

end Ibc
